import Mathlib

/-!
Shallow embedding of the Django data model declared in
`backend/grupoedetica/models.py`, together with theorems about its
declared constraints: on_delete behaviour of the foreign keys, unique
and unique_together constraints, default values, the primary key of
`Portal`, and the uppercase-on-save transform of `UpperCaseCharField`.

Tables are modelled as lists of rows; the framework-side checks that a
`save()` performs (uniqueness, referential integrity, on_delete) are
modelled as explicit insert/delete functions returning `Option`
(`none` = the database rejects the statement).
-/

namespace Grupoedetica

/-- The `on_delete` behaviour of a `ForeignKey`/`OneToOneField`.  The module
uses only `models.CASCADE` and `models.RESTRICT`. -/
inductive OnDelete where
  | cascade
  | restrict
deriving DecidableEq

/-- One `ForeignKey` / `OneToOneField` declaration of `models.py`:
the model it appears in, the field name, the name of the referenced class
exactly as written in the source, its `on_delete` argument, whether it is
declared `null=True`, and whether it is a `OneToOneField`. -/
structure FKDecl where
  model : String
  field : String
  target : String
  onDelete : OnDelete
  nullable : Bool
  oneToOne : Bool
deriving DecidableEq

/-- All `ForeignKey`/`OneToOneField` declarations of `models.py`, in source
order (lines 56-285). -/
def foreignKeys : List FKDecl :=
  [⟨"Estancia", "tipo", "TipoEstancia", .restrict, false, false⟩,
   ⟨"Cliente", "user", "User", .cascade, false, true⟩,
   ⟨"EstanciaTipoBase", "tipo_base", "TipoBase", .restrict, false, false⟩,
   ⟨"EstanciaTipoBase", "estancia", "Estancia", .restrict, false, false⟩,
   ⟨"DocumentoPortalPromocion", "portal", "Portal", .restrict, false, false⟩,
   ⟨"TipoBasePortal", "portal", "Portal", .restrict, false, false⟩,
   ⟨"TipoBasePortal", "tipo_base", "TipoBase", .restrict, false, false⟩,
   ⟨"DocumentoTipoBasePortal", "inmueble_tipo_portal", "TipoBasePortal", .restrict, false, false⟩,
   ⟨"Inmueble", "tipo", "TipoBasePortal", .restrict, false, false⟩,
   ⟨"Inmueble", "propietario", "Cliente", .restrict, false, false⟩,
   ⟨"DocumentoInmueble", "inmueble", "Inmueble", .restrict, false, false⟩,
   ⟨"PlazaGaraje", "inmueble", "Inmueble", .restrict, false, false⟩,
   ⟨"PlazaGaraje", "portal", "Portal", .restrict, false, false⟩,
   ⟨"Votacion", "tipo", "TipoVotacion", .restrict, false, false⟩,
   ⟨"Votacion", "portal", "Portal", .restrict, false, false⟩,
   ⟨"Votacion", "inmueble_tipo_portal", "InmuebleTipoPortal", .restrict, false, false⟩,
   ⟨"OpcionVoto", "votacion", "Votacion", .restrict, false, false⟩,
   ⟨"ClienteOpcionVoto", "cliente", "Cliente", .restrict, false, false⟩,
   ⟨"ClienteOpcionVoto", "opcion_voto", "OpcionVoto", .restrict, false, false⟩,
   ⟨"OpcionConfiguracion", "configuracion", "ConfiguracionInmueble", .restrict, false, false⟩,
   ⟨"OpcionConfiguracionSeleccionada", "inmueble", "Inmueble", .restrict, true, false⟩,
   ⟨"OpcionConfiguracionSeleccionada", "opcion_configuracion", "OpcionConfiguracion", .restrict, true, false⟩,
   ⟨"DocumentoConfiguracionInmueble", "opcion_configuracion_inmueble", "OpcionConfiguracionSeleccionada", .restrict, false, false⟩]

/-- A model class declared in `models.py`: its name and the field declared
with `primary_key=True`, if any (`none` means the framework adds the
implicit auto-generated `id` primary key). -/
structure ModelDecl where
  name : String
  primaryKey : Option String
deriving DecidableEq

/-- The model classes defined in `models.py`, in source order. -/
def modelsDeclared : List ModelDecl :=
  [⟨"TipoEstancia", none⟩,
   ⟨"Estancia", none⟩,
   ⟨"Cliente", none⟩,
   ⟨"TipoBase", none⟩,
   ⟨"EstanciaTipoBase", none⟩,
   ⟨"Portal", some "numero"⟩,
   ⟨"DocumentoPortalPromocion", none⟩,
   ⟨"TipoBasePortal", none⟩,
   ⟨"DocumentoTipoBasePortal", none⟩,
   ⟨"Inmueble", none⟩,
   ⟨"DocumentoInmueble", none⟩,
   ⟨"PlazaGaraje", none⟩,
   ⟨"TipoVotacion", none⟩,
   ⟨"Votacion", none⟩,
   ⟨"OpcionVoto", none⟩,
   ⟨"ClienteOpcionVoto", none⟩,
   ⟨"ConfiguracionInmueble", none⟩,
   ⟨"OpcionConfiguracion", none⟩,
   ⟨"OpcionConfiguracionSeleccionada", none⟩,
   ⟨"DocumentoConfiguracionInmueble", none⟩]

/-- Names other than the model classes that are in scope at module level
of `models.py`: the two imports (`from django.db import models`,
`from django.contrib.auth.models import User`). -/
def importedNames : List String := ["models", "User"]

/-- Names of the classes defined in `models.py` (the non-model helper class
`UpperCaseCharField` included). -/
def moduleClassNames : List String :=
  "UpperCaseCharField" :: modelsDeclared.map (fun d => d.name)

/-! ### UpperCaseCharField.pre_save (models.py lines 17-24) -/

/-- A model instance viewed through `getattr`/`setattr`: its attribute map.
`none` models an attribute that is missing or holds Python `None`. -/
structure ModelInstance where
  attrs : String → Option String

/-- `getattr(model_instance, attname, None)`. -/
def getattr (m : ModelInstance) (attname : String) : Option String :=
  m.attrs attname

/-- `setattr(model_instance, attname, v)`. -/
def setattr (m : ModelInstance) (attname : String) (v : String) : ModelInstance :=
  ⟨fun n => if n = attname then some v else m.attrs n⟩

/-- `django.db.models.Field.pre_save` (what `CharField` inherits): it just
returns the instance's current attribute value, touching nothing. -/
def Field.pre_save (m : ModelInstance) (attname : String) : Option String :=
  getattr m attname

/-- `UpperCaseCharField.pre_save` (models.py lines 17-24).  The source reads
the attribute with default `None`; a value is truthy exactly when it is a
non-empty string, in which case it is uppercased, written back with
`setattr`, and returned; otherwise the inherited `pre_save` result is
returned and the instance is untouched.  Returns the pair
(returned value, instance after the call).  `String.toUpper` models
Python's `str.upper`. -/
def UpperCaseCharField.pre_save (m : ModelInstance) (attname : String) (add : Bool) :
    Option String × ModelInstance :=
  match getattr m attname with
  | some s =>
      if s.isEmpty then (Field.pre_save m attname, m)
      else (some s.toUpper, setattr m attname s.toUpper)
  | none => (Field.pre_save m attname, m)

/-! ### Tables as lists of rows, inserts as constraint-checked appends -/

/-- A `Cliente` row (models.py lines 65-78).  `id` is the implicit auto
primary key; `user` holds the id of the referenced auth `User`. -/
structure Cliente where
  id : Nat
  user : Nat
  telefono : String
  dni : String
deriving DecidableEq

/-- An `Inmueble` row (models.py lines 205-212).  `tipo` and `propietario`
hold ids of the referenced `TipoBasePortal` and `Cliente` rows. -/
structure Inmueble where
  id : Nat
  piso : Int
  letra : String
  id_trastero : Int
  superficie_trastero : Int
  tipo : Nat
  propietario : Nat
  compra_venta_firmada : Bool
deriving DecidableEq

/-- The slice of the database that the on_delete behaviour of
`Cliente.user` (CASCADE) and `Inmueble.propietario` (RESTRICT) touches:
the auth `User` table (ids), the `Cliente` table and the `Inmueble`
table. -/
structure ClienteSliceDB where
  users : List Nat
  clientes : List Cliente
  inmuebles : List Inmueble
deriving DecidableEq

/-- Deleting a `Cliente` row.  `Inmueble.propietario` is declared
`on_delete=models.RESTRICT`, so the delete is rejected (`none`) while any
`Inmueble` row references the cliente. -/
def deleteCliente (db : ClienteSliceDB) (cid : Nat) : Option ClienteSliceDB :=
  if ∃ i ∈ db.inmuebles, i.propietario = cid then none
  else some ⟨db.users, db.clientes.filter (fun c => c.id != cid), db.inmuebles⟩

/-- Deleting an auth `User`.  `Cliente.user` is declared
`on_delete=models.CASCADE`, so the delete collects the linked `Cliente`
row; a RESTRICT edge into a collected row (`Inmueble.propietario`) still
rejects the whole delete, otherwise the user and its cliente are both
removed. -/
def deleteUser (db : ClienteSliceDB) (uid : Nat) : Option ClienteSliceDB :=
  if ∃ i ∈ db.inmuebles, ∃ c ∈ db.clientes, c.id = i.propietario ∧ c.user = uid then none
  else some ⟨db.users.filter (fun u => u != uid),
             db.clientes.filter (fun c => c.user != uid),
             db.inmuebles⟩

/-- Inserting a `Cliente` row: `user` is a `OneToOneField` (must reference
an existing `User` and be unique across rows) and `dni` is declared
`unique=True`. -/
def insertCliente (users : List Nat) (rows : List Cliente) (r : Cliente) :
    Option (List Cliente) :=
  if r.user ∈ users ∧ ¬ ∃ c ∈ rows, c.user = r.user ∨ c.dni = r.dni then
    some (rows ++ [r])
  else none

/-- States of the `Cliente` table reachable from empty by accepted inserts,
against a fixed `User` table. -/
inductive ClienteReach (users : List Nat) : List Cliente → Prop
  | empty : ClienteReach users []
  | step {rows r rows'} : ClienteReach users rows →
      insertCliente users rows r = some rows' → ClienteReach users rows'

/-- An `EstanciaTipoBase` row (models.py lines 105-125). -/
structure EstanciaTipoBase where
  id : Nat
  numero : Int
  tipo_base : Nat
  estancia : Nat
deriving DecidableEq

/-- Building an `EstanciaTipoBase` instance: `numero` is declared
`default = 1`, used when the field is not supplied. -/
def mkEstanciaTipoBase (id : Nat) (tipo_base estancia : Nat) (numero : Option Int) :
    EstanciaTipoBase :=
  ⟨id, numero.getD 1, tipo_base, estancia⟩

/-- Inserting an `EstanciaTipoBase` row:
`unique_together = (('tipo_base', 'estancia'),)`. -/
def insertEstanciaTipoBase (rows : List EstanciaTipoBase) (r : EstanciaTipoBase) :
    Option (List EstanciaTipoBase) :=
  if ∃ x ∈ rows, x.tipo_base = r.tipo_base ∧ x.estancia = r.estancia then none
  else some (rows ++ [r])

/-- States of the `EstanciaTipoBase` table reachable from empty by accepted
inserts. -/
inductive EstanciaTipoBaseReach : List EstanciaTipoBase → Prop
  | empty : EstanciaTipoBaseReach []
  | step {rows r rows'} : EstanciaTipoBaseReach rows →
      insertEstanciaTipoBase rows r = some rows' → EstanciaTipoBaseReach rows'

/-- A `Portal` row (models.py lines 128-140): its only column is
`numero = models.IntegerField(primary_key=True)`. -/
structure Portal where
  numero : Int
deriving DecidableEq

/-- Inserting a `Portal` row: `numero` is the primary key, so a second row
with the same `numero` is rejected. -/
def insertPortal (rows : List Portal) (numero : Int) : Option (List Portal) :=
  if ∃ x ∈ rows, x.numero = numero then none
  else some (rows ++ [⟨numero⟩])

/-- States of the `Portal` table reachable from empty by accepted
inserts. -/
inductive PortalReach : List Portal → Prop
  | empty : PortalReach []
  | step {rows numero rows'} : PortalReach rows →
      insertPortal rows numero = some rows' → PortalReach rows'

/-- A `DocumentoPortalPromocion` row (models.py lines 143-161).  `portal`
holds the `numero` primary key of the referenced `Portal`; the `DateField`
`fecha_creacion` is modelled as a day ordinal. -/
structure DocumentoPortalPromocion where
  id : Nat
  titulo : String
  ruta_documento : String
  descripcion : Option String
  portal : Int
  fecha_creacion : Nat
deriving DecidableEq

/-- Inserting a `DocumentoPortalPromocion` row: `titulo` and
`ruta_documento` are each declared `unique=True`, two independent
constraints. -/
def insertDocumentoPortalPromocion (rows : List DocumentoPortalPromocion)
    (r : DocumentoPortalPromocion) : Option (List DocumentoPortalPromocion) :=
  if ∃ x ∈ rows, x.titulo = r.titulo ∨ x.ruta_documento = r.ruta_documento then none
  else some (rows ++ [r])

/-- States of the `DocumentoPortalPromocion` table reachable from empty by
accepted inserts. -/
inductive DocumentoPortalPromocionReach : List DocumentoPortalPromocion → Prop
  | empty : DocumentoPortalPromocionReach []
  | step {rows r rows'} : DocumentoPortalPromocionReach rows →
      insertDocumentoPortalPromocion rows r = some rows' →
      DocumentoPortalPromocionReach rows'

/-- An `OpcionVoto` row (models.py lines 253-255). -/
structure OpcionVoto where
  id : Nat
  opcion : String
  votacion : Nat
deriving DecidableEq

/-- A `ClienteOpcionVoto` row (models.py lines 257-262). -/
structure ClienteOpcionVoto where
  id : Nat
  cliente : Nat
  opcion_voto : Nat
deriving DecidableEq

/-- Inserting a `ClienteOpcionVoto` row:
`unique_together = (('cliente', 'opcion_voto'),)`. -/
def insertClienteOpcionVoto (rows : List ClienteOpcionVoto) (r : ClienteOpcionVoto) :
    Option (List ClienteOpcionVoto) :=
  if ∃ x ∈ rows, x.cliente = r.cliente ∧ x.opcion_voto = r.opcion_voto then none
  else some (rows ++ [r])

/-- States of the `ClienteOpcionVoto` table reachable from empty by accepted
inserts. -/
inductive ClienteOpcionVotoReach : List ClienteOpcionVoto → Prop
  | empty : ClienteOpcionVotoReach []
  | step {rows r rows'} : ClienteOpcionVotoReach rows →
      insertClienteOpcionVoto rows r = some rows' → ClienteOpcionVotoReach rows'

/-- An `OpcionConfiguracionSeleccionada` row (models.py lines 276-279): its
two foreign keys are declared `null=True`, so they are optional. -/
structure OpcionConfiguracionSeleccionada where
  id : Nat
  ruta_documento : String
  inmueble : Option Nat
  opcion_configuracion : Option Nat
deriving DecidableEq

/-- Referential-integrity check of a nullable foreign key: NULL always
passes, a non-NULL value must reference an existing row id. -/
def fkOk (ids : List Nat) : Option Nat → Bool
  | none => true
  | some v => ids.contains v

/-- Inserting an `OpcionConfiguracionSeleccionada` row: no uniqueness
constraints; both foreign keys are nullable, a non-NULL one must point at
an existing `Inmueble` / `OpcionConfiguracion` row. -/
def insertOpcionConfiguracionSeleccionada (inmuebleIds opcionIds : List Nat)
    (rows : List OpcionConfiguracionSeleccionada) (r : OpcionConfiguracionSeleccionada) :
    Option (List OpcionConfiguracionSeleccionada) :=
  if fkOk inmuebleIds r.inmueble && fkOk opcionIds r.opcion_configuracion then
    some (rows ++ [r])
  else none

/-! ### Helper lemmas -/

/-- Appending an element compatible with every element of the list preserves
`List.Pairwise`. -/
theorem pairwise_append_one {α : Type} {R : α → α → Prop} {l : List α} {a : α}
    (h : l.Pairwise R) (ha : ∀ x ∈ l, R x a) : (l ++ [a]).Pairwise R := by
  rw [List.pairwise_append]
  refine ⟨h, List.pairwise_singleton .., ?_⟩
  intro x hx b hb
  rw [List.mem_singleton] at hb
  subst hb
  exact ha x hx

/-- On every reachable `ClienteOpcionVoto` table state, no two rows agree on
both `cliente` and `opcion_voto`. -/
theorem clienteOpcionVotoReach_pairwise {rows : List ClienteOpcionVoto}
    (h : ClienteOpcionVotoReach rows) :
    rows.Pairwise fun a b => ¬(a.cliente = b.cliente ∧ a.opcion_voto = b.opcion_voto) := by
  induction h with
  | empty => exact List.Pairwise.nil
  | step _ hins ih =>
      unfold insertClienteOpcionVoto at hins
      split at hins
      · simp at hins
      · rename_i hno
        obtain rfl := (Option.some.inj hins).symm
        push_neg at hno
        exact pairwise_append_one ih fun x hx => by
          rintro ⟨h1, h2⟩
          exact hno x hx h1 h2

/-- On every reachable `EstanciaTipoBase` table state, no two rows agree on
both `tipo_base` and `estancia`. -/
theorem estanciaTipoBaseReach_pairwise {rows : List EstanciaTipoBase}
    (h : EstanciaTipoBaseReach rows) :
    rows.Pairwise fun a b => ¬(a.tipo_base = b.tipo_base ∧ a.estancia = b.estancia) := by
  induction h with
  | empty => exact List.Pairwise.nil
  | step _ hins ih =>
      unfold insertEstanciaTipoBase at hins
      split at hins
      · simp at hins
      · rename_i hno
        obtain rfl := (Option.some.inj hins).symm
        push_neg at hno
        exact pairwise_append_one ih fun x hx => by
          rintro ⟨h1, h2⟩
          exact hno x hx h1 h2

/-- On every reachable `Portal` table state, the primary-key column `numero`
is pairwise distinct. -/
theorem portalReach_pairwise {rows : List Portal} (h : PortalReach rows) :
    rows.Pairwise fun a b => a.numero ≠ b.numero := by
  induction h with
  | empty => exact List.Pairwise.nil
  | step _ hins ih =>
      unfold insertPortal at hins
      split at hins
      · simp at hins
      · rename_i hno
        obtain rfl := (Option.some.inj hins).symm
        push_neg at hno
        exact pairwise_append_one ih fun x hx => hno x hx

/-- On every reachable `DocumentoPortalPromocion` table state, titles are
pairwise distinct and document paths are pairwise distinct. -/
theorem documentoPortalPromocionReach_pairwise {rows : List DocumentoPortalPromocion}
    (h : DocumentoPortalPromocionReach rows) :
    rows.Pairwise fun a b =>
      a.titulo ≠ b.titulo ∧ a.ruta_documento ≠ b.ruta_documento := by
  induction h with
  | empty => exact List.Pairwise.nil
  | step _ hins ih =>
      unfold insertDocumentoPortalPromocion at hins
      split at hins
      · simp at hins
      · rename_i hno
        obtain rfl := (Option.some.inj hins).symm
        push_neg at hno
        exact pairwise_append_one ih fun x hx => hno x hx

/-- On every reachable `Cliente` table state, `user` values are pairwise
distinct (OneToOneField) and `dni` values are pairwise distinct
(`unique=True`). -/
theorem clienteReach_pairwise {users : List Nat} {rows : List Cliente}
    (h : ClienteReach users rows) :
    rows.Pairwise fun a b => a.user ≠ b.user ∧ a.dni ≠ b.dni := by
  induction h with
  | empty => exact List.Pairwise.nil
  | step _ hins ih =>
      unfold insertCliente at hins
      split at hins
      · rename_i hcond
        obtain rfl := (Option.some.inj hins).symm
        have hno := hcond.2
        push_neg at hno
        exact pairwise_append_one ih fun x hx => hno x hx
      · simp at hins

/-- On every reachable `Cliente` table state, every row's `user` references
an existing auth `User` id. -/
theorem clienteReach_user_mem {users : List Nat} {rows : List Cliente}
    (h : ClienteReach users rows) : ∀ c ∈ rows, c.user ∈ users := by
  induction h with
  | empty => intro c hc; simp at hc
  | step _ hins ih =>
      unfold insertCliente at hins
      split at hins
      · rename_i hcond
        obtain rfl := (Option.some.inj hins).symm
        intro c hc
        rcases List.mem_append.mp hc with h1 | h1
        · exact ih c h1
        · rw [List.mem_singleton] at h1
          subst h1
          exact hcond.1
      · simp at hins

/-! ### Claims -/

/-- C1: every `ForeignKey`/`OneToOneField` in the module uses
restrict-on-delete except `Cliente.user`, which cascades; dynamically,
deleting a `Cliente` referenced by an `Inmueble` is rejected, while
deleting an auth `User` (when no RESTRICT edge blocks the collection)
succeeds and removes the linked `Cliente` row. -/
theorem C1_fk_restrict_except_cliente_user :
    (∀ fk ∈ foreignKeys,
        fk.onDelete = OnDelete.restrict ∨ (fk.model = "Cliente" ∧ fk.field = "user")) ∧
    (∀ fk ∈ foreignKeys, fk.onDelete = OnDelete.cascade →
        fk.model = "Cliente" ∧ fk.field = "user" ∧ fk.oneToOne = true) ∧
    (⟨"Cliente", "user", "User", OnDelete.cascade, false, true⟩ : FKDecl) ∈ foreignKeys ∧
    (∀ db cid, (∃ i ∈ db.inmuebles, i.propietario = cid) → deleteCliente db cid = none) ∧
    (∀ db uid,
        (¬ ∃ i ∈ db.inmuebles, ∃ c ∈ db.clientes, c.id = i.propietario ∧ c.user = uid) →
        ∃ db', deleteUser db uid = some db' ∧ ∀ c ∈ db'.clientes, c.user ≠ uid) := by
  refine ⟨by decide, by decide, by decide, ?_, ?_⟩
  · intro db cid h
    unfold deleteCliente
    rw [if_pos h]
  · intro db uid h
    refine ⟨⟨db.users.filter (fun u => u != uid),
             db.clientes.filter (fun c => c.user != uid), db.inmuebles⟩, ?_, ?_⟩
    · unfold deleteUser
      rw [if_neg h]
    · intro c hc
      have h2 := (List.mem_filter.mp hc).2
      simpa using h2

/-- C1 witness: a `Cliente` referenced by an `Inmueble` cannot be deleted;
deleting a `User` removes the linked `Cliente` row. -/
theorem C1_fk_restrict_except_cliente_user_witness :
    deleteCliente ⟨[7], [⟨0, 7, "600111222", "11111111H"⟩],
      [⟨0, 1, "A", 2, 3, 0, 0, false⟩]⟩ 0 = none ∧
    ∃ db', deleteUser ⟨[7], [⟨0, 7, "600111222", "11111111H"⟩], []⟩ 7 = some db' ∧
      ∀ c ∈ db'.clientes, c.user ≠ 7 :=
  ⟨C1_fk_restrict_except_cliente_user.2.2.2.1 _ 0 (by decide),
   C1_fk_restrict_except_cliente_user.2.2.2.2 _ 7 (by decide)⟩

/-- C2: `UpperCaseCharField.pre_save` on an instance whose `letra` attribute
is a non-empty string returns the uppercased value and overwrites the
attribute with it. -/
theorem C2_upper_case_on_save (m : ModelInstance) (s : String) (add : Bool)
    (h : getattr m "letra" = some s) (hne : s ≠ "") :
    (UpperCaseCharField.pre_save m "letra" add).1 = some s.toUpper ∧
    getattr (UpperCaseCharField.pre_save m "letra" add).2 "letra" = some s.toUpper := by
  have hempty : s.isEmpty = false := by
    cases hs : s.isEmpty
    · rfl
    · exact absurd ((String.isEmpty_iff s).mp hs) hne
  unfold UpperCaseCharField.pre_save
  rw [h]
  simp [hempty, getattr, setattr]

/-- C2 witness: storing `"b"` in `letra` yields `"B"`, both in the returned
value and on the instance. -/
theorem C2_upper_case_on_save_witness :
    (UpperCaseCharField.pre_save
        ⟨fun n => if n = "letra" then some "b" else none⟩ "letra" true).1
      = some (String.toUpper "b") ∧
    getattr (UpperCaseCharField.pre_save
        ⟨fun n => if n = "letra" then some "b" else none⟩ "letra" true).2 "letra"
      = some (String.toUpper "b") :=
  C2_upper_case_on_save _ "b" true (by decide) (by decide)

/-- C3: the third `ForeignKey` of `Votacion` is written
`models.ForeignKey(InmuebleTipoPortal, ...)`, but no class named
`InmuebleTipoPortal` is defined in the module or imported — only
`TipoBasePortal` exists — so the class body of `Votacion` raises
`NameError` when the module is imported. -/
theorem C3_votacion_fk_target_undefined :
    ((foreignKeys.filter (fun fk => fk.model == "Votacion")).map (fun fk => fk.target)
        = ["TipoVotacion", "Portal", "InmuebleTipoPortal"]) ∧
    "InmuebleTipoPortal" ∉ moduleClassNames ∧
    "InmuebleTipoPortal" ∉ importedNames ∧
    "TipoBasePortal" ∈ moduleClassNames := by
  decide

/-- C4: on every reachable state no two `ClienteOpcionVoto` rows share the
`(cliente, opcion_voto)` pair; inserting a second cast vote by the same
cliente for the same option fails; the same cliente can hold rows for two
different options of the same `Votacion`. -/
theorem C4_cliente_opcion_voto_unique :
    (∀ rows, ClienteOpcionVotoReach rows →
        rows.Pairwise fun a b => ¬(a.cliente = b.cliente ∧ a.opcion_voto = b.opcion_voto)) ∧
    (∀ rows r, (∃ x ∈ rows, x.cliente = r.cliente ∧ x.opcion_voto = r.opcion_voto) →
        insertClienteOpcionVoto rows r = none) ∧
    (∀ (rows rows1 : List ClienteOpcionVoto) (r1 r2 : ClienteOpcionVoto)
        (ov1 ov2 : OpcionVoto),
        ov1.votacion = ov2.votacion → r1.opcion_voto = ov1.id → r2.opcion_voto = ov2.id →
        r1.cliente = r2.cliente → r1.opcion_voto ≠ r2.opcion_voto →
        insertClienteOpcionVoto rows r1 = some rows1 →
        (¬ ∃ x ∈ rows, x.cliente = r2.cliente ∧ x.opcion_voto = r2.opcion_voto) →
        ∃ rows2, insertClienteOpcionVoto rows1 r2 = some rows2) := by
  refine ⟨fun rows h => clienteOpcionVotoReach_pairwise h, ?_, ?_⟩
  · intro rows r h
    unfold insertClienteOpcionVoto
    rw [if_pos h]
  · intro rows rows1 r1 r2 ov1 ov2 _ _ _ _ hne hins hno
    unfold insertClienteOpcionVoto at hins
    split at hins
    · simp at hins
    · obtain rfl := (Option.some.inj hins).symm
      have hcond : ¬ ∃ x ∈ rows ++ [r1],
          x.cliente = r2.cliente ∧ x.opcion_voto = r2.opcion_voto := by
        rintro ⟨x, hxmem, hxc, hxo⟩
        rcases List.mem_append.mp hxmem with hxr | hxr
        · exact hno ⟨x, hxr, hxc, hxo⟩
        · rw [List.mem_singleton] at hxr
          subst hxr
          exact hne hxo
      unfold insertClienteOpcionVoto
      rw [if_neg hcond]
      exact ⟨_, rfl⟩

/-- C4 witness: with one cast vote (cliente 1, opcion 10) in the table,
the pairwise constraint holds, a second (1, 10) row is rejected, and a
(1, 11) row for another option of the same votacion is accepted. -/
theorem C4_cliente_opcion_voto_unique_witness :
    ([⟨0, 1, 10⟩] : List ClienteOpcionVoto).Pairwise
        (fun a b => ¬(a.cliente = b.cliente ∧ a.opcion_voto = b.opcion_voto)) ∧
    insertClienteOpcionVoto [⟨0, 1, 10⟩] ⟨1, 1, 10⟩ = none ∧
    ∃ rows2, insertClienteOpcionVoto [⟨0, 1, 10⟩] ⟨1, 1, 11⟩ = some rows2 :=
  ⟨C4_cliente_opcion_voto_unique.1 _
      (@ClienteOpcionVotoReach.step [] ⟨0, 1, 10⟩ [⟨0, 1, 10⟩]
        ClienteOpcionVotoReach.empty (by decide)),
   C4_cliente_opcion_voto_unique.2.1 _ _ (by decide),
   C4_cliente_opcion_voto_unique.2.2 [] [⟨0, 1, 10⟩] ⟨0, 1, 10⟩ ⟨1, 1, 11⟩
      ⟨10, "si", 3⟩ ⟨11, "no", 3⟩ (by decide) (by decide) (by decide) (by decide)
      (by decide) (by decide) (by decide)⟩

/-- C5: on every reachable state no two `EstanciaTipoBase` rows share the
`(tipo_base, estancia)` pair, a duplicate pair is rejected on insert, and
`numero` defaults to `1` when not supplied (and keeps a supplied value). -/
theorem C5_estancia_tipo_base_unique_and_default :
    (∀ rows, EstanciaTipoBaseReach rows →
        rows.Pairwise fun a b => ¬(a.tipo_base = b.tipo_base ∧ a.estancia = b.estancia)) ∧
    (∀ rows r, (∃ x ∈ rows, x.tipo_base = r.tipo_base ∧ x.estancia = r.estancia) →
        insertEstanciaTipoBase rows r = none) ∧
    (∀ id tipo_base estancia, (mkEstanciaTipoBase id tipo_base estancia none).numero = 1) ∧
    (∀ id tipo_base estancia n,
        (mkEstanciaTipoBase id tipo_base estancia (some n)).numero = n) := by
  refine ⟨fun rows h => estanciaTipoBaseReach_pairwise h, ?_, fun _ _ _ => rfl,
    fun _ _ _ _ => rfl⟩
  intro rows r h
  unfold insertEstanciaTipoBase
  rw [if_pos h]

/-- C5 witness: a duplicate `(tipo_base, estancia)` pair is rejected, and a
row built without `numero` gets `numero = 1`. -/
theorem C5_estancia_tipo_base_unique_and_default_witness :
    ([⟨0, 1, 4, 9⟩] : List EstanciaTipoBase).Pairwise
        (fun a b => ¬(a.tipo_base = b.tipo_base ∧ a.estancia = b.estancia)) ∧
    insertEstanciaTipoBase [⟨0, 1, 4, 9⟩] ⟨1, 2, 4, 9⟩ = none ∧
    (mkEstanciaTipoBase 5 4 9 none).numero = 1 ∧
    (mkEstanciaTipoBase 5 4 9 (some 3)).numero = 3 :=
  ⟨C5_estancia_tipo_base_unique_and_default.1 _
      (@EstanciaTipoBaseReach.step [] ⟨0, 1, 4, 9⟩ [⟨0, 1, 4, 9⟩]
        EstanciaTipoBaseReach.empty (by decide)),
   C5_estancia_tipo_base_unique_and_default.2.1 _ _ (by decide),
   C5_estancia_tipo_base_unique_and_default.2.2.1 5 4 9,
   C5_estancia_tipo_base_unique_and_default.2.2.2 5 4 9 3⟩

/-- C6: `numero` is the declared primary key of `Portal` (no auto-generated
`id` column); on every reachable state no two `Portal` rows share a
`numero`, and inserting a duplicate `numero` is rejected. -/
theorem C6_portal_pk_numero :
    ((⟨"Portal", some "numero"⟩ : ModelDecl) ∈ modelsDeclared) ∧
    (∀ d ∈ modelsDeclared, d.name = "Portal" → d.primaryKey = some "numero") ∧
    (∀ rows, PortalReach rows → rows.Pairwise fun a b => a.numero ≠ b.numero) ∧
    (∀ rows n, (∃ x ∈ rows, x.numero = n) → insertPortal rows n = none) := by
  refine ⟨by decide, by decide, fun rows h => portalReach_pairwise h, ?_⟩
  intro rows n h
  unfold insertPortal
  rw [if_pos h]

/-- C6 witness: with portal 3 present, inserting another portal 3 fails and
the pairwise-distinct invariant holds. -/
theorem C6_portal_pk_numero_witness :
    ([⟨3⟩] : List Portal).Pairwise (fun a b => a.numero ≠ b.numero) ∧
    insertPortal [⟨3⟩] 3 = none :=
  ⟨C6_portal_pk_numero.2.2.1 _
      (@PortalReach.step [] 3 [⟨3⟩] PortalReach.empty (by decide)),
   C6_portal_pk_numero.2.2.2 _ 3 (by decide)⟩

/-- C7: on every reachable state `DocumentoPortalPromocion` titles are
pairwise distinct and document paths are pairwise distinct; an insert whose
`titulo` matches an existing row fails, and likewise for
`ruta_documento`. -/
theorem C7_documento_portal_promocion_unique :
    (∀ rows, DocumentoPortalPromocionReach rows →
        rows.Pairwise fun a b =>
          a.titulo ≠ b.titulo ∧ a.ruta_documento ≠ b.ruta_documento) ∧
    (∀ rows r, (∃ x ∈ rows, x.titulo = r.titulo) →
        insertDocumentoPortalPromocion rows r = none) ∧
    (∀ rows r, (∃ x ∈ rows, x.ruta_documento = r.ruta_documento) →
        insertDocumentoPortalPromocion rows r = none) := by
  refine ⟨fun rows h => documentoPortalPromocionReach_pairwise h, ?_, ?_⟩
  · intro rows r h
    obtain ⟨x, hx, ht⟩ := h
    unfold insertDocumentoPortalPromocion
    rw [if_pos ⟨x, hx, Or.inl ht⟩]
  · intro rows r h
    obtain ⟨x, hx, ht⟩ := h
    unfold insertDocumentoPortalPromocion
    rw [if_pos ⟨x, hx, Or.inr ht⟩]

/-- C7 witness: with one document in the table, a new document reusing its
title (fresh path) is rejected, and one reusing its path (fresh title) is
rejected. -/
theorem C7_documento_portal_promocion_unique_witness :
    ([⟨0, "planos", "docs/planos.pdf", none, 3, 100⟩] :
        List DocumentoPortalPromocion).Pairwise
        (fun a b => a.titulo ≠ b.titulo ∧ a.ruta_documento ≠ b.ruta_documento) ∧
    insertDocumentoPortalPromocion [⟨0, "planos", "docs/planos.pdf", none, 3, 100⟩]
      ⟨1, "planos", "docs/otro.pdf", none, 3, 101⟩ = none ∧
    insertDocumentoPortalPromocion [⟨0, "planos", "docs/planos.pdf", none, 3, 100⟩]
      ⟨1, "memoria", "docs/planos.pdf", none, 3, 101⟩ = none :=
  ⟨C7_documento_portal_promocion_unique.1 _
      (@DocumentoPortalPromocionReach.step []
        ⟨0, "planos", "docs/planos.pdf", none, 3, 100⟩
        [⟨0, "planos", "docs/planos.pdf", none, 3, 100⟩]
        DocumentoPortalPromocionReach.empty (by decide)),
   C7_documento_portal_promocion_unique.2.1 _ _ (by decide),
   C7_documento_portal_promocion_unique.2.2 _ _ (by decide)⟩

/-- C8: on every reachable state each `Cliente` row references an existing
auth `User`, no two rows share a `user` (OneToOneField) and no two rows
share a `dni` (`unique=True`); inserts that duplicate a `user` or a `dni`
are rejected. -/
theorem C8_cliente_one_to_one_unique_dni :
    (∀ users rows, ClienteReach users rows →
        rows.Pairwise fun a b => a.user ≠ b.user ∧ a.dni ≠ b.dni) ∧
    (∀ users rows, ClienteReach users rows → ∀ c ∈ rows, c.user ∈ users) ∧
    (∀ users rows r, (∃ c ∈ rows, c.user = r.user) → insertCliente users rows r = none) ∧
    (∀ users rows r, (∃ c ∈ rows, c.dni = r.dni) → insertCliente users rows r = none) := by
  refine ⟨fun users rows h => clienteReach_pairwise h,
    fun users rows h => clienteReach_user_mem h, ?_, ?_⟩
  · intro users rows r h
    obtain ⟨c, hc, he⟩ := h
    unfold insertCliente
    rw [if_neg (fun hcond => hcond.2 ⟨c, hc, Or.inl he⟩)]
  · intro users rows r h
    obtain ⟨c, hc, he⟩ := h
    unfold insertCliente
    rw [if_neg (fun hcond => hcond.2 ⟨c, hc, Or.inr he⟩)]

/-- C8 witness: with one cliente (user 7, dni "11111111H"), a second row
reusing the user fails, a second row reusing the dni fails; the pairwise
constraints and the user-existence invariant hold on the reached state. -/
theorem C8_cliente_one_to_one_unique_dni_witness :
    ([⟨0, 7, "600111222", "11111111H"⟩] : List Cliente).Pairwise
        (fun a b => a.user ≠ b.user ∧ a.dni ≠ b.dni) ∧
    (∀ c ∈ ([⟨0, 7, "600111222", "11111111H"⟩] : List Cliente), c.user ∈ [7, 8]) ∧
    insertCliente [7, 8] [⟨0, 7, "600111222", "11111111H"⟩]
      ⟨1, 7, "600111223", "22222222J"⟩ = none ∧
    insertCliente [7, 8] [⟨0, 7, "600111222", "11111111H"⟩]
      ⟨1, 8, "600111223", "11111111H"⟩ = none :=
  ⟨C8_cliente_one_to_one_unique_dni.1 [7, 8] _
      (@ClienteReach.step [7, 8] [] ⟨0, 7, "600111222", "11111111H"⟩
        [⟨0, 7, "600111222", "11111111H"⟩] ClienteReach.empty (by decide)),
   C8_cliente_one_to_one_unique_dni.2.1 [7, 8] _
      (@ClienteReach.step [7, 8] [] ⟨0, 7, "600111222", "11111111H"⟩
        [⟨0, 7, "600111222", "11111111H"⟩] ClienteReach.empty (by decide)),
   C8_cliente_one_to_one_unique_dni.2.2.1 _ _ _ (by decide),
   C8_cliente_one_to_one_unique_dni.2.2.2 _ _ _ (by decide)⟩

/-- C9: when the `letra` attribute is missing/`None` or the empty string,
`UpperCaseCharField.pre_save` returns exactly the inherited
`Field.pre_save` result and leaves the whole instance unchanged. -/
theorem C9_pre_save_frame (m : ModelInstance) (add : Bool)
    (h : getattr m "letra" = none ∨ getattr m "letra" = some "") :
    UpperCaseCharField.pre_save m "letra" add = (Field.pre_save m "letra", m) := by
  unfold UpperCaseCharField.pre_save
  rcases h with h | h
  · rw [h]
  · rw [h]
    rfl

/-- C9 witness: on an instance with no attributes set, pre_save returns the
inherited result and the untouched instance. -/
theorem C9_pre_save_frame_witness :
    UpperCaseCharField.pre_save ⟨fun _ => none⟩ "letra" false
      = (Field.pre_save ⟨fun _ => none⟩ "letra", ⟨fun _ => none⟩) :=
  C9_pre_save_frame _ false (Or.inl rfl)

/-- C10: the two foreign keys of `OpcionConfiguracionSeleccionada` are the
only nullable foreign keys of the schema, and inserting a selection row
with `inmueble` NULL, `opcion_configuracion` NULL, or both NULL
succeeds. -/
theorem C10_seleccion_nullable_fk :
    (∀ fk ∈ foreignKeys, fk.nullable = true ↔
        (fk.model = "OpcionConfiguracionSeleccionada" ∧
          (fk.field = "inmueble" ∨ fk.field = "opcion_configuracion"))) ∧
    (∀ inmuebleIds opcionIds rows id ruta,
        insertOpcionConfiguracionSeleccionada inmuebleIds opcionIds rows
          ⟨id, ruta, none, none⟩ = some (rows ++ [⟨id, ruta, none, none⟩])) ∧
    (∀ inmuebleIds opcionIds rows id ruta o, o ∈ opcionIds →
        insertOpcionConfiguracionSeleccionada inmuebleIds opcionIds rows
          ⟨id, ruta, none, some o⟩ = some (rows ++ [⟨id, ruta, none, some o⟩])) ∧
    (∀ inmuebleIds opcionIds rows id ruta i, i ∈ inmuebleIds →
        insertOpcionConfiguracionSeleccionada inmuebleIds opcionIds rows
          ⟨id, ruta, some i, none⟩ = some (rows ++ [⟨id, ruta, some i, none⟩])) := by
  refine ⟨by decide, fun _ _ _ _ _ => rfl, ?_, ?_⟩
  · intro inmuebleIds opcionIds rows id ruta o ho
    simp [insertOpcionConfiguracionSeleccionada, fkOk, ho]
  · intro inmuebleIds opcionIds rows id ruta i hi
    simp [insertOpcionConfiguracionSeleccionada, fkOk, hi]

/-- C10 witness: a selection row with both references NULL, one with only
`opcion_configuracion` set, and one with only `inmueble` set are all
accepted. -/
theorem C10_seleccion_nullable_fk_witness :
    insertOpcionConfiguracionSeleccionada [4] [9] [] ⟨0, "docs/sel.pdf", none, none⟩
      = some [⟨0, "docs/sel.pdf", none, none⟩] ∧
    insertOpcionConfiguracionSeleccionada [4] [9] [] ⟨0, "docs/sel.pdf", none, some 9⟩
      = some [⟨0, "docs/sel.pdf", none, some 9⟩] ∧
    insertOpcionConfiguracionSeleccionada [4] [9] [] ⟨0, "docs/sel.pdf", some 4, none⟩
      = some [⟨0, "docs/sel.pdf", some 4, none⟩] :=
  ⟨C10_seleccion_nullable_fk.2.1 [4] [9] [] 0 "docs/sel.pdf",
   C10_seleccion_nullable_fk.2.2.1 [4] [9] [] 0 "docs/sel.pdf" 9 (by decide),
   C10_seleccion_nullable_fk.2.2.2 [4] [9] [] 0 "docs/sel.pdf" 4 (by decide)⟩

end Grupoedetica
